import Mathlib

/-!
# Verification of `fastAPI_app/static/js/script.js`

A shallow embedding of the browser-side dashboard script: the Chart.js
data buffer updated by the WebSocket `onmessage` handler, the login flow,
and the reconnect policy of `connectWebSocket`.  JavaScript values that
the script can observe are modelled by `JsValue`; numbers are modelled as
rationals (the script performs no arithmetic on them, it only stores and
displays them, so this is faithful for every claim below).  Strings are
Lean `String`s; `String.take` stands for `substring(0, n)` (the script
only slices ASCII-style transaction ids, where JS UTF-16 code units and
characters coincide).
-/

/-- A JavaScript value as observed by the script: `undefined`, a string,
a number, or an object with named fields.  (The script never inspects
arrays or booleans, so they are not needed.) -/
inductive JsValue where
  | undefined : JsValue
  | str : String → JsValue
  | num : ℚ → JsValue
  | obj : List (String × JsValue) → JsValue

/-- First-match field lookup in an object's field list. -/
def lookupField : List (String × JsValue) → String → Option JsValue
  | [], _ => none
  | (k, v) :: rest, name => if k = name then some v else lookupField rest name

/-- JavaScript property access `v.name`.  Returns `none` when the access
throws (`TypeError` on `undefined`); on an object it yields the field or
`undefined` when absent; property access on a string/number primitive
yields `undefined` for the properties this script reads. -/
def getProp : JsValue → String → Option JsValue
  | .undefined, _ => none
  | .obj fields, name => some ((lookupField fields name).getD .undefined)
  | .str _, _ => some .undefined
  | .num _, _ => some .undefined

/-- The chart's data, as created by `initializeChart`:
`transactionChart.data.labels` and `transactionChart.data.datasets[0].data`. -/
structure ChartData where
  labels : List String
  amounts : List JsValue

/-- `initializeChart` starts both arrays empty
(`labels: []` and `data: []` in the chart config). -/
def chartInit : ChartData := ⟨[], []⟩

/-- The buffer update performed by `ws.onmessage` once `label` and `amount`
are computed: push `label` onto `labels` and `amount` onto the dataset,
then, if the labels array now holds more than 20 entries, shift one
element off the front of each. -/
def bufferAppend (label : String) (amount : JsValue) (c : ChartData) : ChartData :=
  let labels := c.labels ++ [label]
  let amounts := c.amounts ++ [amount]
  if labels.length > 20 then ⟨labels.tail, amounts.tail⟩ else ⟨labels, amounts⟩

/-- Outcome of one run of the `ws.onmessage` handler: the chart data after
the handler returns (mutations made before an exception persist), whether
the handler body threw an uncaught exception, and whether the handler
closed the WebSocket connection (its body contains no `close()` call, so
this is always `false`). -/
structure HandlerResult where
  chart : ChartData
  threw : Bool
  closedConn : Bool

/-- The `ws.onmessage` handler.  `data` is the result of `JSON.parse
(event.data)`: `none` when parsing throws, otherwise the parsed value.
Following the source order: read `transaction.transaction_id`, slice its
first 8 characters (`substring(0, 8)` throws a `TypeError` unless the
value is a string), read `transaction.transaction_details.amount`
(throws when `transaction_details` is `undefined`), then push both values
and slide the 20-element window. -/
def onmessage (data : Option JsValue) (c : ChartData) : HandlerResult :=
  match data with
  | none => ⟨c, true, false⟩
  | some transaction =>
    match getProp transaction "transaction_id" with
    | none => ⟨c, true, false⟩
    | some tid =>
      match tid with
      | .str s =>
        let label := s.take 8
        match getProp transaction "transaction_details" with
        | none => ⟨c, true, false⟩
        | some details =>
          match getProp details "amount" with
          | none => ⟨c, true, false⟩
          | some amount => ⟨bufferAppend label amount c, false, false⟩
      | _ => ⟨c, true, false⟩

/-- Folding the buffer update over a list of already-extracted
(label, amount) points, starting from the freshly initialized chart. -/
def runBuffer (ps : List (String × JsValue)) : ChartData :=
  ps.foldl (fun c p => bufferAppend p.1 p.2 c) chartInit

/-- The visible state of the external chart widget. -/
structure WidgetView where
  shownLabels : List String
  shownAmounts : List JsValue

/-- `transactionChart.update()`: redraw the widget from the chart data.
Chart.js redraws from `transactionChart.data`, so the visible state is a
full resync from the buffer, independent of the previous view. -/
def update (c : ChartData) (_w : WidgetView) : WidgetView :=
  ⟨c.labels, c.amounts⟩

/-! ## Buffer lemmas -/

lemma runBuffer_append (ps : List (String × JsValue)) (p : String × JsValue) :
    runBuffer (ps ++ [p]) = bufferAppend p.1 p.2 (runBuffer ps) := by
  simp [runBuffer, List.foldl_append]

/-- After any sequence of appends the two arrays are exactly the last 20
labels and the last 20 amounts of the appended points. -/
lemma runBuffer_spec (ps : List (String × JsValue)) :
    (runBuffer ps).labels = (ps.map Prod.fst).drop (ps.length - 20) ∧
    (runBuffer ps).amounts = (ps.map Prod.snd).drop (ps.length - 20) := by
  induction ps using List.reverseRecOn with
  | nil => simp [runBuffer, chartInit]
  | append_singleton l p ih =>
    obtain ⟨ih1, ih2⟩ := ih
    rw [runBuffer_append]
    by_cases h : l.length < 20
    · have h0 : l.length - 20 = 0 := by omega
      have hng : ¬ (l.length + 1 > 20) := by omega
      have h0' : l.length + 1 - 20 = 0 := by omega
      simp [bufferAppend, ih1, ih2, h0, hng, h0', List.map_append, List.length_append]
    · push_neg at h
      have hk : l.length - 20 ≤ l.length := by omega
      have hlen : ((l.map Prod.fst).drop (l.length - 20) ++ [p.1]).length = 21 := by
        simp [List.length_drop, List.length_map]
        omega
      constructor
      · rw [bufferAppend]
        simp only [ih1, ih2, hlen]
        norm_num
        have e1 : (l.map Prod.fst).drop (l.length - 20) ++ [p.1] =
            ((l ++ [p]).map Prod.fst).drop (l.length - 20) := by
          simp [List.map_append, List.drop_append_of_le_length,
            (by simp only [List.length_map]; omega : l.length - 20 ≤ (l.map Prod.fst).length)]
        rw [e1, List.tail_drop]
        simp [List.length_append]
        congr 1
        omega
      · rw [bufferAppend]
        simp only [ih1, ih2, hlen]
        norm_num
        have e2 : (l.map Prod.snd).drop (l.length - 20) ++ [p.2] =
            ((l ++ [p]).map Prod.snd).drop (l.length - 20) := by
          simp [List.map_append, List.drop_append_of_le_length,
            (by simp only [List.length_map]; omega : l.length - 20 ≤ (l.map Prod.snd).length)]
        rw [e2, List.tail_drop]
        simp [List.length_append]
        congr 1
        omega

/-! ## Login flow -/

/-- JavaScript string coercion used by the concatenation
`"Login failed: " + data.detail`.  Number rendering is abstracted as the
decimal rendering of the rational; the script only ever concatenates the
server's `detail` string. -/
def jsToDisplayString : JsValue → String
  | .str s => s
  | .undefined => "undefined"
  | .num q => toString q
  | .obj _ => "[object Object]"

/-- The page state touched by `login`: the `accessToken` variable, the
`login-status` text, the CSS `display` of `login-form` and
`chart-container`, the chart instance created by `initializeChart`
(`none` before it is called), and whether `connectWebSocket` has been
invoked. -/
structure PageState where
  accessToken : JsValue
  loginStatusText : String
  loginFormDisplay : String
  chartContainerDisplay : String
  chart : Option ChartData
  wsStarted : Bool

/-- The `login` function after `await response.json()` resolved to `body`
with HTTP status `status`.  On status 200 it stores `data.access_token`,
sets the status text, hides the login form, shows the chart container,
calls `initializeChart()` and `connectWebSocket()`; otherwise it only sets
the status text from `data.detail`.  `none` models the (unreachable for a
parsed JSON body) case where a property access throws. -/
def login (status : Nat) (body : JsValue) (s : PageState) : Option PageState :=
  if status = 200 then
    match getProp body "access_token" with
    | none => none
    | some tok =>
      some { s with
        accessToken := tok
        loginStatusText := "Login successful!"
        loginFormDisplay := "none"
        chartContainerDisplay := "block"
        chart := some chartInit
        wsStarted := true }
  else
    match getProp body "detail" with
    | none => none
    | some d =>
      some { s with loginStatusText := "Login failed: " ++ jsToDisplayString d }

/-! ## Transport client: connection and reconnect dynamics

`connectWebSocket` opens one WebSocket using the current `accessToken`;
`ws.onclose` runs `setTimeout(connectWebSocket, 5000)`; `ws.onerror` calls
`ws.close()`, which leads to the same close path.  We model the page as a
timed transition system: the state records the wall clock (ms), the open
connections (each tagged with the token its URL embeds) and the deadlines
of the pending reconnect timers.  Events: an external `connectWebSocket`
call (a successful login), a close of one open connection, the firing of a
pending timer (legal only once the clock has reached its deadline, as
`setTimeout` guarantees), and clock advance. -/

/-- Fixed reconnect delay of `setTimeout(connectWebSocket, 5000)`. -/
def reconnectDelayMs : Nat := 5000

/-- State of the transport layer: clock, tokens of the open connections,
deadlines of pending reconnect timers, and the current `accessToken`. -/
structure ConnState where
  now : Nat
  conns : List String
  pending : List Nat
  token : String

/-- Events the transport layer reacts to. -/
inductive Ev where
  | connect : Ev
  | close : Ev
  | fire : Nat → Ev
  | tick : Nat → Ev

/-- One step of the transport layer.  `connect` is an external
`connectWebSocket()` call and opens a connection with the current token.
`close` is the `onclose` handler of one open connection: it schedules
exactly one reconnect timer, `setTimeout(connectWebSocket, 5000)`.
`fire d` is that timer firing, which `setTimeout` allows only at or after
its deadline; it runs `connectWebSocket`, opening a connection with the
token current at fire time.  `tick` advances the clock.  `none` marks
events that cannot occur (closing with no open connection, firing a timer
that is not pending or not yet due). -/
def wsStep (s : ConnState) (e : Ev) : Option ConnState :=
  match e with
  | .connect => some { s with conns := s.conns ++ [s.token] }
  | .close =>
    match s.conns with
    | [] => none
    | _ :: rest =>
      some { s with conns := rest, pending := s.pending ++ [s.now + reconnectDelayMs] }
  | .fire d =>
    if d ∈ s.pending ∧ d ≤ s.now then
      some { s with pending := s.pending.erase d, conns := s.conns ++ [s.token] }
    else none
  | .tick dt => some { s with now := s.now + dt }

/-- Run the transport layer over a list of events. -/
def wsRun (s : ConnState) : List Ev → Option ConnState
  | [] => some s
  | e :: evs => (wsStep s e).bind (fun t => wsRun t evs)

/-- The page before any login: clock 0, no connection, no pending timer. -/
def wsInit (token : String) : ConnState := ⟨0, [], [], token⟩

/-- Number of external `connectWebSocket` invocations in an event list. -/
def countConnect (evs : List Ev) : Nat :=
  evs.countP (fun e => match e with | .connect => true | _ => false)

/-- Conservation: open connections plus pending reconnect timers grow only
with external `connectWebSocket` invocations — each close converts one
open connection into one pending timer and each fire converts one pending
timer back into one open connection. -/
lemma wsRun_conservation (evs : List Ev) :
    ∀ s u : ConnState, wsRun s evs = some u →
    u.conns.length + u.pending.length =
      s.conns.length + s.pending.length + countConnect evs := by
  induction evs with
  | nil =>
    intro s u h
    simp [wsRun] at h
    simp [h, countConnect]
  | cons e evs ih =>
    intro s u h
    simp only [wsRun] at h
    cases he : wsStep s e with
    | none => rw [he] at h; simp at h
    | some t =>
      rw [he] at h
      simp only [Option.some_bind] at h
      have ht := ih t u h
      cases e with
      | connect =>
        simp only [wsStep] at he
        cases he
        simp [countConnect, List.countP_cons] at ht ⊢
        omega
      | close =>
        simp only [wsStep] at he
        cases hc : s.conns with
        | nil => rw [hc] at he; simp at he
        | cons c rest =>
          rw [hc] at he
          simp only [Option.some.injEq] at he
          subst he
          simp [countConnect, List.countP_cons, hc] at ht ⊢
          omega
      | fire d =>
        simp only [wsStep] at he
        by_cases hd : d ∈ s.pending ∧ d ≤ s.now
        · rw [if_pos hd] at he
          simp only [Option.some.injEq] at he
          subst he
          have := List.length_erase_of_mem hd.1
          simp [countConnect, List.countP_cons, this] at ht ⊢
          have hp : 1 ≤ s.pending.length := List.length_pos.mpr
            (List.ne_nil_of_mem hd.1) 
          omega
        · rw [if_neg hd] at he; simp at he
      | tick dt =>
        simp only [wsStep] at he
        cases he
        simp [countConnect, List.countP_cons] at ht ⊢
        omega

/-! ## Handler lemmas -/

/-- A well-formed message shape: `onmessage` appends one point whose label
is the first 8 characters of the id and whose amount is the looked-up
`amount` field (`undefined` when that field is absent). -/
lemma onmessage_wellformed (tid : String) (dfields : List (String × JsValue))
    (c : ChartData) :
    onmessage (some (.obj [("transaction_id", .str tid),
                           ("transaction_details", .obj dfields)])) c =
      ⟨bufferAppend (tid.take 8) ((lookupField dfields "amount").getD .undefined) c,
        false, false⟩ := by
  simp [onmessage, getProp, lookupField]

/-- Every run of the handler either throws with the chart untouched, or
completes normally having performed exactly one `bufferAppend`; it never
closes the connection. -/
lemma onmessage_cases (data : Option JsValue) (c : ChartData) :
    (onmessage data c).closedConn = false ∧
    (((onmessage data c).threw = true ∧ (onmessage data c).chart = c) ∨
      ((onmessage data c).threw = false ∧
        ∃ l a, (onmessage data c).chart = bufferAppend l a c)) := by
  cases data with
  | none => exact ⟨rfl, Or.inl ⟨rfl, rfl⟩⟩
  | some v =>
    cases hp : getProp v "transaction_id" with
    | none => simp [onmessage, hp]
    | some tid =>
      cases tid with
      | undefined => simp [onmessage, hp]
      | num q => simp [onmessage, hp]
      | obj f => simp [onmessage, hp]
      | str s =>
        cases hq : getProp v "transaction_details" with
        | none => simp [onmessage, hp, hq]
        | some details =>
          cases hr : getProp details "amount" with
          | none => simp [onmessage, hp, hq, hr]
          | some a =>
            refine ⟨?_, Or.inr ⟨?_, s.take 8, a, ?_⟩⟩ <;>
              simp [onmessage, hp, hq, hr]

/-- One `bufferAppend` preserves equality of the two array lengths. -/
lemma bufferAppend_length (l : String) (a : JsValue) (c : ChartData)
    (h : c.labels.length = c.amounts.length) :
    (bufferAppend l a c).labels.length = (bufferAppend l a c).amounts.length := by
  simp only [bufferAppend]
  split_ifs <;> simp [h]

/-! ## The claims -/

/-- C1: for every sequence of appended chart points, after each append
performed by the message handler the buffer length (the chart's labels
array length) equals `min(appended_so_far, 20)`; in particular it never
exceeds 20.  (Quantifying over all sequences `ps` covers the state after
every intermediate append.) -/
theorem C1_buffer_length (ps : List (String × JsValue)) :
    (runBuffer ps).labels.length = min ps.length 20 := by
  rw [(runBuffer_spec ps).1]
  simp only [List.length_drop, List.length_map]
  omega

/-- C2: for every N > 20, after N appends by the message handler the
buffer contains exactly the last 20 appended (label, amount) points, in
arrival order (oldest first). -/
theorem C2_last_twenty (ps : List (String × JsValue)) (h : 20 < ps.length) :
    (runBuffer ps).labels = (ps.drop (ps.length - 20)).map Prod.fst ∧
    (runBuffer ps).amounts = (ps.drop (ps.length - 20)).map Prod.snd ∧
    (ps.drop (ps.length - 20)).length = 20 := by
  obtain ⟨h1, h2⟩ := runBuffer_spec ps
  refine ⟨?_, ?_, ?_⟩
  · rw [h1, List.map_drop]
  · rw [h2, List.map_drop]
  · simp only [List.length_drop]
    omega

/-- Twenty-one concrete points instantiating the sliding-window theorem. -/
def pointsTwentyOne : List (String × JsValue) :=
  (List.range 21).map fun i => (toString i, JsValue.num i)

/-- Witness for C2 at a concrete 21-point sequence. -/
theorem C2_last_twenty_witness :
    20 < pointsTwentyOne.length ∧
    ((runBuffer pointsTwentyOne).labels =
        (pointsTwentyOne.drop (pointsTwentyOne.length - 20)).map Prod.fst ∧
      (runBuffer pointsTwentyOne).amounts =
        (pointsTwentyOne.drop (pointsTwentyOne.length - 20)).map Prod.snd ∧
      (pointsTwentyOne.drop (pointsTwentyOne.length - 20)).length = 20) :=
  ⟨by decide, C2_last_twenty pointsTwentyOne (by decide)⟩

/-- C3 counterexample: the claim says the handler does not throw on a
malformed payload, but on unparseable JSON `JSON.parse` throws and the
exception propagates uncaught out of `ws.onmessage` (there is no
try/catch in the handler). -/
theorem C3_counterexample : (onmessage none chartInit).threw = true := rfl

/-- C3 amended: whenever the handler throws, the buffer is unchanged and
the handler does not close the connection (every throw happens before the
pushes, and the handler body contains no `close()` call); each malformed
shape does throw — unparseable JSON, an object with no `transaction_id`
field, a non-string `transaction_id` (its `substring` is a `TypeError`),
and a missing `transaction_details` (reading `.amount` of `undefined`
throws); but a message whose `transaction_details` object is present and
merely lacks `amount` does NOT throw — it appends the point
(label, undefined). -/
theorem C3_amended (data : Option JsValue) (c : ChartData)
    (h : (onmessage data c).threw = true) :
    (onmessage data c).chart = c ∧
    (onmessage data c).closedConn = false ∧
    (onmessage none c).threw = true ∧
    (∀ fields, lookupField fields "transaction_id" = none →
      (onmessage (some (.obj fields)) c).threw = true) ∧
    (∀ fields v, lookupField fields "transaction_id" = some v →
      (∀ s, v ≠ JsValue.str s) →
      (onmessage (some (.obj fields)) c).threw = true) ∧
    (∀ fields tid, lookupField fields "transaction_id" = some (JsValue.str tid) →
      lookupField fields "transaction_details" = none →
      (onmessage (some (.obj fields)) c).threw = true) ∧
    (∀ tid, onmessage (some (.obj [("transaction_id", JsValue.str tid),
                                   ("transaction_details", JsValue.obj [])])) c =
      ⟨bufferAppend (tid.take 8) JsValue.undefined c, false, false⟩) := by
  obtain ⟨hclose, hcase⟩ := onmessage_cases data c
  refine ⟨?_, hclose, rfl, ?_, ?_, ?_, fun tid => ?_⟩
  · rcases hcase with ⟨_, hc⟩ | ⟨hf, _⟩
    · exact hc
    · rw [h] at hf; cases hf
  · intro fields h3
    simp [onmessage, getProp, h3]
  · intro fields v h4 hns
    cases v with
    | str s => exact absurd rfl (hns s)
    | undefined => simp [onmessage, getProp, h4]
    | num q => simp [onmessage, getProp, h4]
    | obj f => simp [onmessage, getProp, h4]
  · intro fields tid h5a h5b
    simp [onmessage, getProp, h5a, h5b]
  · simpa using onmessage_wellformed tid [] c

/-- Witness for C3's amended theorem at the unparseable-JSON input. -/
theorem C3_amended_witness :
    (onmessage none chartInit).threw = true ∧
    ((onmessage none chartInit).chart = chartInit ∧
      (onmessage none chartInit).closedConn = false ∧
      (onmessage none chartInit).threw = true ∧
      (∀ fields, lookupField fields "transaction_id" = none →
        (onmessage (some (.obj fields)) chartInit).threw = true) ∧
      (∀ fields v, lookupField fields "transaction_id" = some v →
        (∀ s, v ≠ JsValue.str s) →
        (onmessage (some (.obj fields)) chartInit).threw = true) ∧
      (∀ fields tid,
        lookupField fields "transaction_id" = some (JsValue.str tid) →
        lookupField fields "transaction_details" = none →
        (onmessage (some (.obj fields)) chartInit).threw = true) ∧
      (∀ tid, onmessage (some (.obj [("transaction_id", JsValue.str tid),
                                     ("transaction_details", JsValue.obj [])]))
          chartInit =
        ⟨bufferAppend (tid.take 8) JsValue.undefined chartInit, false, false⟩)) :=
  ⟨rfl, C3_amended none chartInit rfl⟩

/-- C4: every close event schedules exactly one reconnect attempt via
`setTimeout(connectWebSocket, 5000)` — the pending-timer list grows by
exactly one deadline, equal to the close time plus the fixed 5000 ms
delay, in every state with an open connection (so the policy repeats
indefinitely, with no backoff growth and no retry limit); a pending timer
can fire only at or after its deadline and then runs `connectWebSocket`
with the current token; no event moves the clock backwards or changes the
stored token. -/
theorem C4_reconnect_policy (s : ConnState) (h : s.conns ≠ []) :
    (∃ s', wsStep s Ev.close = some s' ∧
        s'.pending = s.pending ++ [s.now + reconnectDelayMs] ∧
        s'.token = s.token ∧ s'.conns.length + 1 = s.conns.length) ∧
    reconnectDelayMs = 5000 ∧
    (∀ t u d, wsStep t (Ev.fire d) = some u →
        d ≤ t.now ∧ u.conns = t.conns ++ [t.token]) ∧
    (∀ t u e, wsStep t e = some u → t.now ≤ u.now ∧ u.token = t.token) := by
  refine ⟨?_, rfl, ?_, ?_⟩
  · cases hc : s.conns with
    | nil => exact absurd hc h
    | cons c0 rest =>
      refine ⟨{ s with conns := rest, pending := s.pending ++ [s.now + reconnectDelayMs] }, ?_, rfl, rfl, ?_⟩
      · simp [wsStep, hc]
      · simp [hc]
  · intro t u d hstep
    simp only [wsStep] at hstep
    split_ifs at hstep with hd
    simp only [Option.some.injEq] at hstep
    subst hstep
    exact ⟨hd.2, rfl⟩
  · intro t u e hstep
    cases e with
    | connect =>
      simp only [wsStep, Option.some.injEq] at hstep
      subst hstep
      exact ⟨le_refl _, rfl⟩
    | close =>
      simp only [wsStep] at hstep
      cases hc : t.conns with
      | nil => rw [hc] at hstep; simp at hstep
      | cons c0 rest =>
        rw [hc] at hstep
        simp only [Option.some.injEq] at hstep
        subst hstep
        exact ⟨le_refl _, rfl⟩
    | fire d =>
      simp only [wsStep] at hstep
      split_ifs at hstep with hd
      simp only [Option.some.injEq] at hstep
      subst hstep
      exact ⟨le_refl _, rfl⟩
    | tick dt =>
      simp only [wsStep, Option.some.injEq] at hstep
      subst hstep
      exact ⟨Nat.le_add_right _ _, rfl⟩

/-- The transport state right after one successful connect. -/
def connStateOne : ConnState := ⟨0, ["tok"], [], "tok"⟩

/-- Witness for C4 at a concrete connected state. -/
theorem C4_reconnect_policy_witness :
    connStateOne.conns ≠ [] ∧
    ((∃ s', wsStep connStateOne Ev.close = some s' ∧
        s'.pending = connStateOne.pending ++
          [connStateOne.now + reconnectDelayMs] ∧
        s'.token = connStateOne.token ∧
        s'.conns.length + 1 = connStateOne.conns.length) ∧
      reconnectDelayMs = 5000 ∧
      (∀ t u d, wsStep t (Ev.fire d) = some u →
          d ≤ t.now ∧ u.conns = t.conns ++ [t.token]) ∧
      (∀ t u e, wsStep t e = some u → t.now ≤ u.now ∧ u.token = t.token)) :=
  ⟨by decide, C4_reconnect_policy connStateOne (by decide)⟩

/-- C5 counterexample: the claim asserts at most one open connection and
at most one pending reconnect timer in every reachable state, but nothing
in the source guards `connectWebSocket` against a second external
invocation (the login button stays clickable until the 200 response
hides the form): two connects yield two simultaneously open connections,
and after both close, two reconnect timers are pending at once. -/
theorem C5_counterexample :
    (wsRun (wsInit "tok") [Ev.connect, Ev.connect]).map
        (fun s => s.conns.length) = some 2 ∧
    (wsRun (wsInit "tok") [Ev.connect, Ev.connect, Ev.close, Ev.close]).map
        (fun s => s.pending.length) = some 2 :=
  ⟨rfl, rfl⟩

/-- C5 amended: in every run in which `connectWebSocket` is invoked
externally at most once (a single successful login), every reachable
state has at most one open connection and at most one pending reconnect
timer; the code itself has no guard, so repeated external invocations
violate the bound. -/
theorem C5_single_connect_invariant (tok : String) (evs : List Ev)
    (u : ConnState) (h : wsRun (wsInit tok) evs = some u)
    (h1 : countConnect evs ≤ 1) :
    u.conns.length ≤ 1 ∧ u.pending.length ≤ 1 := by
  have hc := wsRun_conservation evs (wsInit tok) u h
  simp [wsInit] at hc
  omega

/-- Witness for C5's amended theorem on a single connect/close/reconnect
cycle. -/
theorem C5_single_connect_invariant_witness :
    wsRun (wsInit "tok") [Ev.connect, Ev.close, Ev.tick 5000, Ev.fire 5000] =
        some ⟨5000, ["tok"], [], "tok"⟩ ∧
    countConnect [Ev.connect, Ev.close, Ev.tick 5000, Ev.fire 5000] ≤ 1 ∧
    ((⟨5000, ["tok"], [], "tok"⟩ : ConnState).conns.length ≤ 1 ∧
      (⟨5000, ["tok"], [], "tok"⟩ : ConnState).pending.length ≤ 1) :=
  ⟨rfl, by decide,
    C5_single_connect_invariant "tok" [Ev.connect, Ev.close, Ev.tick 5000, Ev.fire 5000]
      ⟨5000, ["tok"], [], "tok"⟩ rfl (by decide)⟩

/-- The 200 response body of the login scenario. -/
def loginOkBody : JsValue := .obj [("access_token", .str "abc123")]

/-- C6: for a login response of status 200 with body
`{"access_token":"abc123"}`, the stored token becomes `"abc123"`, the
chart container becomes visible (`display: block`), the login form is
hidden (`display: none`), the chart is initialized and
`connectWebSocket` is invoked — and nothing else of the page state
changes. -/
theorem C6_login_success (s : PageState) :
    login 200 loginOkBody s =
      some { s with
        accessToken := JsValue.str "abc123"
        loginStatusText := "Login successful!"
        loginFormDisplay := "none"
        chartContainerDisplay := "block"
        chart := some chartInit
        wsStarted := true } := rfl

/-- The non-200 response body of the login-failure scenario. -/
def loginFailBody : JsValue := .obj [("detail", .str "Invalid credentials")]

/-- C7: for a login response of any non-200 status with body
`{"detail":"Invalid credentials"}`, the status text becomes
`"Login failed: Invalid credentials"` and nothing else changes: the
token, both display values, the chart and the transport flag are
untouched, so the chart UI stays hidden and no connection is opened. -/
theorem C7_login_failure (s : PageState) (status : Nat) (h : status ≠ 200) :
    login status loginFailBody s =
      some { s with loginStatusText := "Login failed: Invalid credentials" } := by
  simp [login, h, loginFailBody, getProp, lookupField, jsToDisplayString]

/-- The page as loaded: empty token (`let accessToken = ""`), no status
text, login form visible and chart container hidden (the display values
are those the login handler later writes), chart not yet initialized,
transport not started. -/
def pageInit : PageState := ⟨.str "", "", "block", "none", none, false⟩

/-- Witness for C7 at status 401 on the freshly loaded page. -/
theorem C7_login_failure_witness :
    (401 : Nat) ≠ 200 ∧
    login 401 loginFailBody pageInit =
      some { pageInit with
        loginStatusText := "Login failed: Invalid credentials" } :=
  ⟨by decide, C7_login_failure pageInit 401 (by decide)⟩

/-- A concrete well-formed stream message. -/
def sampleMsg : JsValue :=
  .obj [("transaction_id", .str "abcdef1234567890"),
        ("transaction_details", .obj [("amount", .num (42.5 : ℚ))])]

/-- C8: a well-formed message with id `tid` and amount `a` makes the
handler append exactly one point, labelled with the first 8 characters
of `tid` and valued `a`; in particular the message with id
`"abcdef1234567890"` and amount 42.5 appends `("abcdef12", 42.5)`. -/
theorem C8_wellformed_message (tid : String) (a : JsValue) (c : ChartData) :
    onmessage (some (.obj [("transaction_id", .str tid),
                           ("transaction_details", .obj [("amount", a)])])) c =
      ⟨bufferAppend (tid.take 8) a c, false, false⟩ ∧
    onmessage (some sampleMsg) chartInit =
      ⟨⟨["abcdef12"], [.num (42.5 : ℚ)]⟩, false, false⟩ := by
  constructor
  · simpa using onmessage_wellformed tid [("amount", a)] c
  · have h8 : ("abcdef1234567890".take 8 : String) = "abcdef12" := by decide
    have h := onmessage_wellformed "abcdef1234567890"
      [("amount", JsValue.num (42.5 : ℚ))] chartInit
    rw [show sampleMsg = JsValue.obj
      [("transaction_id", .str "abcdef1234567890"),
       ("transaction_details", .obj [("amount", .num (42.5 : ℚ))])] from rfl, h]
    simp [bufferAppend, chartInit, h8, lookupField]

/-- C9: the render step is a full resync of the widget from the buffer,
so rendering twice with an unchanged buffer produces the same visible
state as rendering once, and the result never depends on the previous
visible state. -/
theorem C9_render_idempotent (c : ChartData) (w w' : WidgetView) :
    update c (update c w) = update c w ∧ update c w = update c w' :=
  ⟨rfl, rfl⟩

/-- C10: the labels array and the amounts array always have equal
length — they start empty together at `initializeChart`, and every run of
the message handler preserves the equality (a completed run pushes one
element onto each and, past 20, shifts one from each; a throwing run
touches neither). -/
theorem C10_equal_array_lengths (data : Option JsValue) (c : ChartData)
    (h : c.labels.length = c.amounts.length) :
    chartInit.labels.length = chartInit.amounts.length ∧
    (onmessage data c).chart.labels.length =
      (onmessage data c).chart.amounts.length := by
  refine ⟨rfl, ?_⟩
  obtain ⟨-, hcase⟩ := onmessage_cases data c
  rcases hcase with ⟨-, hc⟩ | ⟨-, l, a, hc⟩
  · rw [hc]; exact h
  · rw [hc]; exact bufferAppend_length l a c h

/-- Witness for C10 on the initialized chart and a concrete message. -/
theorem C10_equal_array_lengths_witness :
    chartInit.labels.length = chartInit.amounts.length ∧
    (chartInit.labels.length = chartInit.amounts.length ∧
      (onmessage (some sampleMsg) chartInit).chart.labels.length =
        (onmessage (some sampleMsg) chartInit).chart.amounts.length) :=
  ⟨rfl, C10_equal_array_lengths (some sampleMsg) chartInit rfl⟩
